import Mathlib

/-!
Shallow embedding of the clarify_be safety gate and analysis pipeline
(src/utils/safety.js, src/services/analysisService.js, src/schemas/*).

Conventions used throughout:
* JS strings are modelled as Lean `String` (ASCII inputs; `Char.toLower`
  agrees with JS `toLowerCase` on ASCII).
* The external `sanitize-html` library call is modelled as an explicit
  function parameter `sh : String → String`; `new Date().toISOString()` is
  modelled as an explicit `now : String` parameter; the JSON runtime parser
  is modelled as an explicit `jparse : String → Except ε δ` parameter.
* JS regular expressions appearing in the source are embedded by a small
  backtracking matcher (`RElem`, `matchSeq`) whose items transcribe the
  regex literals one element at a time; regexes that are plain literal
  alternations under the `i` flag are expanded into their (lower-cased)
  alternative strings, which is semantically exact.
-/

set_option maxRecDepth 100000

namespace Clarify

/-- Tests whether `needle` is a prefix of `hay` (JS `String.startsWith`). -/
def beginsWith : List Char → List Char → Bool
  | [], _ => true
  | _ :: _, [] => false
  | a :: as, b :: bs => a = b && beginsWith as bs

/-- Index of the first occurrence of `needle` in `hay` (JS `String.indexOf`
for substrings); `some 0` for the empty needle, as in JS. -/
def findSubIdx (needle : List Char) : List Char → Option Nat
  | [] => if beginsWith needle [] then some 0 else none
  | c :: cs =>
    if beginsWith needle (c :: cs) then some 0
    else (findSubIdx needle cs).map (· + 1)

/-- JS `hay.includes(needle)` for strings. -/
def hasSubstr (hay needle : String) : Bool :=
  (findSubIdx needle.data hay.data).isSome

/-- JS `String.toLowerCase` (ASCII-faithful). -/
def lowerStr (s : String) : String :=
  String.mk (s.data.map Char.toLower)

/-- JS `String.toUpperCase` (ASCII-faithful). -/
def upperStr (s : String) : String :=
  String.mk (s.data.map Char.toUpper)

/-- Strips whitespace from both ends of a character list. -/
def trimWsL (l : List Char) : List Char :=
  ((l.dropWhile Char.isWhitespace).reverse.dropWhile Char.isWhitespace).reverse

/-- JS `String.trim`: strip whitespace from both ends. -/
def trimWs (s : String) : String :=
  String.mk (trimWsL s.data)

/-- Crisis detection keyword list from src/utils/safety.js lines 5-10
(already lower-case in the source; the source lower-cases them again
before the substring test). -/
def crisisKeywords : List String :=
  ["suicide", "kill myself", "end it all", "not worth living", "better off dead",
   "hurt myself", "self harm", "cutting", "overdose", "jump off", "hang myself",
   "want to die", "death wish", "no point", "hopeless", "worthless", "burden",
   "crisis", "emergency", "help me", "can\x27t go on", "give up", "final solution"]

/-- Crisis regex patterns from src/utils/safety.js lines 12-21.  Every
pattern is a literal alternation under the `i` flag, so `pattern.test input`
is exactly "some alternative occurs in the lower-cased input as a
substring"; the alternatives are listed here expanded. -/
def crisisPatternAlts : List String :=
  [ -- /i want to (die|kill myself|end it all)/i
   "i want to die", "i want to kill myself", "i want to end it all",
   -- /i should (die|kill myself|end it all)/i
   "i should die", "i should kill myself", "i should end it all",
   -- /i'm going to (die|kill myself|end it all)/i
   "i\x27m going to die", "i\x27m going to kill myself", "i\x27m going to end it all",
   -- /i can't (go on|take it anymore|handle this)/i
   "i can\x27t go on", "i can\x27t take it anymore", "i can\x27t handle this",
   -- /i'm (hopeless|worthless|a burden)/i
   "i\x27m hopeless", "i\x27m worthless", "i\x27m a burden",
   -- /there's no (point|hope|reason)/i
   "there\x27s no point", "there\x27s no hope", "there\x27s no reason",
   -- /i (hate|despise) myself/i
   "i hate myself", "i despise myself",
   -- /i (wish|want) i was (dead|never born)/i
   "i wish i was dead", "i wish i was never born",
   "i want i was dead", "i want i was never born"]

/-- Prompt injection patterns from src/utils/safety.js lines 33-44; each is
a literal string under the `i` flag, matched as a case-insensitive
substring. -/
def promptInjectionPatterns : List String :=
  ["ignore previous instructions", "forget everything", "you are now",
   "pretend to be", "act as if", "roleplay as", "system prompt",
   "jailbreak", "override", "bypass"]

/-- SafetyUtils.detectCrisis (src/utils/safety.js lines 52-72): keyword
substring check on the lower-cased input, then the regex patterns. -/
def detectCrisis (input : String) : Bool :=
  let lowerInput := lowerStr input
  crisisKeywords.any (fun kw => hasSubstr lowerInput kw) ||
  crisisPatternAlts.any (fun p => hasSubstr lowerInput p)

/-- SafetyUtils.detectPromptInjection (src/utils/safety.js lines 138-148). -/
def detectPromptInjection (input : String) : Bool :=
  promptInjectionPatterns.any (fun p => hasSubstr (lowerStr input) p)

/-- Crisis response object (src/utils/safety.js lines 154-166); the
`new Date().toISOString()` call is modelled by the `now` parameter. -/
structure CrisisResponse where
  code : String
  message : String
  resources : List String
  timestamp : String
  deriving DecidableEq, Repr

/-- SafetyUtils.getCrisisResponse (src/utils/safety.js lines 154-166). -/
def getCrisisResponse (now : String) : CrisisResponse :=
  { code := "CRISIS_DETECTED"
    message := "We detected content that suggests you may be in crisis. Please reach out to a mental health professional or crisis hotline immediately. In the US: 988 Suicide & Crisis Lifeline. In the UK: 116 123 Samaritans. In Canada: 1-833-456-4566 Crisis Services Canada."
    resources :=
      ["988 Suicide & Crisis Lifeline (US)",
       "116 123 Samaritans (UK)",
       "1-833-456-4566 Crisis Services Canada",
       "International Association for Suicide Prevention: https://www.iasp.info/resources/Crisis_Centres/"]
    timestamp := now }

/-! ## A small backtracking regex matcher

The PII and URL regexes of src/utils/safety.js quantify only single
character classes (with `{n}`, `{n,}`, `?`, `+`) and use `(?: ... )?`
optional groups and `\b` word boundaries.  `RElem` transcribes such a
regex element by element; `matchSeq` implements leftmost-greedy matching
with backtracking, exactly the JS semantics for this fragment.  The
matcher is fuelled: fuel strictly decreases on every recursive call, and
the wrappers supply fuel that is ample for the backtracking search on the
inputs considered. -/

/-- One element of an embedded regex: a greedily quantified character
class `p{lo,hi}` (`hi = none` meaning unbounded), an optional group
`(?: ... )?`, or a word boundary `\b`.  `clsTry p lo k` is internal to the
matcher only: it records a partially backtracked class that still has the
consumption lengths `k, k-1, ..., lo` to try; source regexes never use it. -/
inductive RElem where
  | cls (p : Char → Bool) (lo : Nat) (hi : Option Nat)
  | opt (xs : List RElem)
  | boundary
  | clsTry (p : Char → Bool) (lo k : Nat)

/-- JS `\w` character class `[A-Za-z0-9_]`. -/
def isWordChar (c : Char) : Bool :=
  c.isAlphanum || c = '_'

/-- JS `\b`: exactly one of the two surrounding positions holds a word
character (string edges count as non-word). -/
def boundaryOk (prev : Option Char) (s : List Char) : Bool :=
  let a := match prev with | some c => isWordChar c | none => false
  let b := match s with | c :: _ => isWordChar c | [] => false
  a != b

/-- Length of the maximal run of characters satisfying `p`. -/
def countRun (p : Char → Bool) : List Char → Nat
  | [] => 0
  | c :: cs => if p c then countRun p cs + 1 else 0

/-- Last character of the consumed portion, else the previous character. -/
def prevAfter (prev : Option Char) (consumed : List Char) : Option Char :=
  match consumed.getLast? with
  | some c => some c
  | none => prev

/-- Backtracking matcher: `matchSeq fuel items prev s` returns the number
of characters of `s` consumed by a leftmost-greedy match of `items`
anchored at the start of `s` (`prev` is the character just before `s`,
for `\b`).  A quantified class first tries its maximal feasible run and
backtracks one length at a time (the `clsTry` state), which is the JS
greedy semantics.  Fuel strictly decreases on every recursive call and
over-approximates the size of the backtracking search tree. -/
def matchSeq : Nat → List RElem → Option Char → List Char → Option Nat
  | 0, _, _, _ => none
  | _ + 1, [], _, _ => some 0
  | fuel + 1, .boundary :: rest, prev, s =>
    if boundaryOk prev s then matchSeq fuel rest prev s else none
  | fuel + 1, .opt xs :: rest, prev, s =>
    match matchSeq fuel (xs ++ rest) prev s with
    | some n => some n
    | none => matchSeq fuel rest prev s
  | fuel + 1, .cls p lo hi :: rest, prev, s =>
    let mr := countRun p s
    let m := match hi with | some h => Nat.min mr h | none => mr
    if m < lo then none else matchSeq fuel (.clsTry p lo m :: rest) prev s
  | fuel + 1, .clsTry p lo k :: rest, prev, s =>
    match matchSeq fuel rest (prevAfter prev (s.take k)) (s.drop k) with
    | some n => some (k + n)
    | none =>
      if k ≤ lo then none
      else matchSeq fuel (.clsTry p lo (k - 1) :: rest) prev s

/-- JS `String.replace` with a `g`-flagged regex: scan left to right,
replace each (non-empty) match, resume after it. -/
def replaceScan (mfuel : Nat) (items : List RElem) (repl : List Char) :
    Nat → Option Char → List Char → List Char
  | 0, _, s => s
  | _ + 1, _, [] => []
  | fuel + 1, prev, c :: cs =>
    match matchSeq mfuel items prev (c :: cs) with
    | some (n + 1) =>
      repl ++ replaceScan mfuel items repl fuel
        (prevAfter prev ((c :: cs).take (n + 1))) ((c :: cs).drop (n + 1))
    | _ => c :: replaceScan mfuel items repl fuel (some c) cs

/-- Global regex replacement over a string, with matcher fuel cubic in the
input length (ample for the patterns embedded here). -/
def regexReplaceAll (items : List RElem) (repl : String) (s : String) : String :=
  String.mk (replaceScan (100 * (s.length + 1) ^ 3) items repl.data
    (s.length + 1) none s.data)

/-! ## The PII and URL regexes (src/utils/safety.js lines 24-30 and 89) -/

/-- Digit class `\d`. -/
def isDigitCh (c : Char) : Bool := c.isDigit

/-- Separator class `[-.\s]` of the phone regex. -/
def phoneSep (c : Char) : Bool := c = '-' || c = '.' || c.isWhitespace

/-- Separator class `[-\s]` of the credit-card regex. -/
def cardSep (c : Char) : Bool := c = '-' || c.isWhitespace

/-- A single literal character, as a `{1}`-quantified class. -/
def lit (c : Char) : RElem := .cls (fun d => d = c) 1 (some 1)

/-- Email regex `\b[A-Za-z0-9._%+-]+@[A-Za-z0-9.-]+\.[A-Z|a-z]{2,}\b`
(the TLD class literally contains `|`, as in the source). -/
def emailItems : List RElem :=
  [.boundary,
   .cls (fun c => c.isAlphanum || c = '.' || c = '_' || c = '%' || c = '+' || c = '-') 1 none,
   lit '@',
   .cls (fun c => c.isAlphanum || c = '.' || c = '-') 1 none,
   lit '.',
   .cls (fun c => c.isAlpha || c = '|') 2 none,
   .boundary]

/-- Phone regex `\b(?:\+?1[-.\s]?)?\(?([0-9]{3})\)?[-.\s]?([0-9]{3})[-.\s]?([0-9]{4})\b`. -/
def phoneItems : List RElem :=
  [.boundary,
   .opt [.cls (fun c => c = '+') 0 (some 1), lit '1', .cls phoneSep 0 (some 1)],
   .cls (fun c => c = '(') 0 (some 1),
   .cls isDigitCh 3 (some 3),
   .cls (fun c => c = ')') 0 (some 1),
   .cls phoneSep 0 (some 1),
   .cls isDigitCh 3 (some 3),
   .cls phoneSep 0 (some 1),
   .cls isDigitCh 4 (some 4),
   .boundary]

/-- SSN regex `\b\d{3}-?\d{2}-?\d{4}\b`. -/
def ssnItems : List RElem :=
  [.boundary,
   .cls isDigitCh 3 (some 3), .cls (fun c => c = '-') 0 (some 1),
   .cls isDigitCh 2 (some 2), .cls (fun c => c = '-') 0 (some 1),
   .cls isDigitCh 4 (some 4),
   .boundary]

/-- Credit card regex `\b\d{4}[-\s]?\d{4}[-\s]?\d{4}[-\s]?\d{4}\b`. -/
def creditCardItems : List RElem :=
  [.boundary,
   .cls isDigitCh 4 (some 4), .cls cardSep 0 (some 1),
   .cls isDigitCh 4 (some 4), .cls cardSep 0 (some 1),
   .cls isDigitCh 4 (some 4), .cls cardSep 0 (some 1),
   .cls isDigitCh 4 (some 4),
   .boundary]

/-- Name regex `\b[A-Z][a-z]+ [A-Z][a-z]+\b`. -/
def nameItems : List RElem :=
  [.boundary,
   .cls (fun c => c.isUpper) 1 (some 1), .cls (fun c => c.isLower) 1 none,
   lit ' ',
   .cls (fun c => c.isUpper) 1 (some 1), .cls (fun c => c.isLower) 1 none,
   .boundary]

/-- URL regex `https?:\/\/[^\s]+` (no boundaries, case-sensitive). -/
def urlItems : List RElem :=
  [lit 'h', lit 't', lit 't', lit 'p',
   .cls (fun c => c = 's') 0 (some 1),
   lit ':', lit '/', lit '/',
   .cls (fun c => !c.isWhitespace) 1 none]

/-! ## Redaction, sanitization and input validation (src/utils/safety.js) -/

/-- SafetyUtils.redactPII (src/utils/safety.js lines 108-131): ordered
global substitutions for email, phone, SSN and credit-card patterns, then
names when `redactNames` is set.  The `typeof` guard reduces to the empty
check in this string-typed model. -/
def redactPII (text : String) (redactNames : Bool) : String :=
  if text = "" then ""
  else
    let r1 := regexReplaceAll emailItems "[EMAIL_REDACTED]" text
    let r2 := regexReplaceAll phoneItems "[PHONE_REDACTED]" r1
    let r3 := regexReplaceAll ssnItems "[SSN_REDACTED]" r2
    let r4 := regexReplaceAll creditCardItems "[CARD_REDACTED]" r3
    if redactNames then regexReplaceAll nameItems "[NAME_REDACTED]" r4 else r4

/-- JS non-global `String.replace` of a literal `i`-flagged pattern:
replace the first case-insensitive occurrence only. -/
def replaceFirstCI (pat repl s : String) : String :=
  match findSubIdx (pat.data.map Char.toLower) (s.data.map Char.toLower) with
  | none => s
  | some i => String.mk (s.data.take i ++ repl.data ++ s.data.drop (i + pat.length))

/-- SafetyUtils.sanitizeInput (src/utils/safety.js lines 79-100).  The
external `sanitize-html` call is the parameter `sh`; then URLs are
replaced globally, each injection pattern once, and the result is trimmed
and truncated to 10000 characters. -/
def sanitizeInput (sh : String → String) (input : String) : String :=
  if input = "" then ""
  else
    let s1 := sh input
    let s2 := regexReplaceAll urlItems "[URL_REMOVED]" s1
    let s3 := promptInjectionPatterns.foldl
      (fun acc p => replaceFirstCI p "[INJECTION_ATTEMPT_REMOVED]" acc) s2
    String.mk ((trimWs s3).data.take 10000)

/-- Result of SafetyUtils.validateInput: the three shapes of object it
returns.  `invalid e` stands for `{isValid:false, error:e}`, `crisis r`
for `{isValid:false, isCrisis:true, response:r}`, and `valid p ol sl` for
`{isValid:true, processedInput:p, originalLength:ol, sanitizedLength:sl}`. -/
inductive ValidationResult where
  | invalid (error : String)
  | crisis (response : CrisisResponse)
  | valid (processedInput : String) (originalLength sanitizedLength : Nat)
  deriving DecidableEq, Repr

/-- SafetyUtils.validateInput (src/utils/safety.js lines 175-219), with
the `sanitize-html` collaborator `sh` and the clock reading `now` made
explicit. -/
def validateInput (sh : String → String) (now : String)
    (input : String) (storageOptIn redactNames : Bool) : ValidationResult :=
  if input = "" then .invalid "Invalid input provided"
  else if detectCrisis input then .crisis (getCrisisResponse now)
  else if detectPromptInjection input then .invalid "Invalid input detected"
  else
    let sanitized := sanitizeInput sh input
    if sanitized.length = 0 then .invalid "Input is empty after sanitization"
    else
      let processedInput :=
        if storageOptIn && !redactNames then sanitized
        else redactPII sanitized redactNames
      .valid processedInput input.length sanitized.length

/-- Ordered composition of the four unconditional redaction passes of
redactPII (email, then phone, then SSN, then credit card). -/
def baseRedactPII (t : String) : String :=
  regexReplaceAll creditCardItems "[CARD_REDACTED]"
    (regexReplaceAll ssnItems "[SSN_REDACTED]"
      (regexReplaceAll phoneItems "[PHONE_REDACTED]"
        (regexReplaceAll emailItems "[EMAIL_REDACTED]" t)))

/-- Erases the clock-dependent field of a validation result (the
`timestamp` of the crisis response); every other field is kept. -/
def stripTimestamp : ValidationResult → ValidationResult
  | .crisis r => .crisis { r with timestamp := "" }
  | v => v

/-! ## Stage data model (src/schemas/narrativeLoop.js, src/unnamed/part_005)

The repair functions of src/services/analysisService.js are invoked on
the output of the normalize functions, whose shape is exactly these
structures (every field a string, every sequence an array of strings), so
the embedding types them accordingly; the `typeof`/`Array.isArray` guards
inside the repair helpers are then identities and are noted where they
occur. -/

/-- NarrativeLoop stage value. -/
structure NarrativeLoop where
  trigger : String
  fear : String
  emotion : String
  outcome : String
  whyItFeelsReal : String
  hiddenLogic : String
  breakingActions : List String
  mechanisms : List String
  deriving DecidableEq, Repr

/-- MicroTest component of a SPIESS map. -/
structure MicroTest where
  description : String
  timeframe : String
  successCriteria : String
  deriving DecidableEq, Repr

/-- ToolAction component of a SPIESS map. -/
structure ToolAction where
  protocol : String
  steps : List String
  example_ : String
  deriving DecidableEq, Repr

/-- SpiessMap stage value. -/
structure SpiessMap where
  sensations : List String
  emotions : List String
  needs : List String
  confirmationBias : String
  microTest : MicroTest
  toolAction : ToolAction
  deriving DecidableEq, Repr

/-- The fixed 12-term needs enumeration (src/unnamed/part_005 lines 3-16). -/
def needsEnum : List String :=
  ["safety", "belonging", "autonomy", "competence", "purpose", "connection",
   "recognition", "control", "predictability", "growth", "contribution",
   "meaning"]

/-- The three allowed toolAction protocols. -/
def allowedProtocols : List String :=
  ["STOP", "Values First", "Bridge Belief"]

/-- Joi `string().min(lo).max(hi)` acceptance on a present string. -/
def lenBetween (lo hi : Nat) (s : String) : Bool :=
  lo ≤ s.length && s.length ≤ hi

/-- Joi `array().items(string().min(ilo).max(ihi)).min(lo).max(hi)`. -/
def arrBetween (lo hi ilo ihi : Nat) (l : List String) : Bool :=
  lo ≤ l.length && l.length ≤ hi && l.all (lenBetween ilo ihi)

/-- Strict narrativeLoopSchema acceptance (src/schemas/narrativeLoop.js
lines 3-12): six required non-empty strings of at most 1000 characters,
1-5 breaking actions of at most 500 characters and 1-10 mechanisms of at
most 200 characters. -/
def narrativeLoopSchemaValid (nl : NarrativeLoop) : Bool :=
  lenBetween 1 1000 nl.trigger && lenBetween 1 1000 nl.fear &&
  lenBetween 1 1000 nl.emotion && lenBetween 1 1000 nl.outcome &&
  lenBetween 1 1000 nl.whyItFeelsReal && lenBetween 1 1000 nl.hiddenLogic &&
  arrBetween 1 5 1 500 nl.breakingActions &&
  arrBetween 1 10 1 200 nl.mechanisms

/-- Strict spiessMapSchema acceptance (src/unnamed/part_005 lines 18-33). -/
def spiessMapSchemaValid (sp : SpiessMap) : Bool :=
  arrBetween 1 5 1 200 sp.sensations &&
  arrBetween 1 5 1 200 sp.emotions &&
  (1 ≤ sp.needs.length && sp.needs.length ≤ 3 &&
    sp.needs.all (fun n => decide (n ∈ needsEnum))) &&
  lenBetween 1 1000 sp.confirmationBias &&
  lenBetween 1 500 sp.microTest.description &&
  lenBetween 1 100 sp.microTest.timeframe &&
  lenBetween 1 300 sp.microTest.successCriteria &&
  decide (sp.toolAction.protocol ∈ allowedProtocols) &&
  arrBetween 1 5 1 300 sp.toolAction.steps &&
  lenBetween 1 500 sp.toolAction.example_

/-! ## Repair functions (src/services/analysisService.js lines 583-659) -/

/-- Local `sanitizeString` of repairNarrativeLoop and repairSpiessMap:
trim, and substitute the fallback when the result is empty (the `typeof`
guard is an identity on this string-typed domain). -/
def sanitizeStringD (val fallback : String) : String :=
  let s := trimWs val
  if s.length > 0 then s else fallback

/-- Local `sanitizeArray` of repairNarrativeLoop: trim the entries, drop
the empty ones, and substitute a singleton fallback when nothing remains
(no truncation in this variant). -/
def sanitizeArrayNL (arr : List String) (fallbackItem : String) : List String :=
  let cleaned := (arr.map trimWs).filter (fun v => v.length > 0)
  if cleaned.length > 0 then cleaned else [fallbackItem]

/-- Local `sanitizeArray` of repairSpiessMap: trim, drop empties,
substitute the singleton fallback when empty, then truncate to `maxN`
(the source always passes `max = 5`). -/
def sanitizeArraySM (arr : List String) (fallbackItem : String) (maxN : Nat) :
    List String :=
  let items := (arr.map trimWs).filter (fun v => v.length > 0)
  let items := if items.length = 0 then [fallbackItem] else items
  items.take maxN

/-- Local `sanitizeNeeds` of repairSpiessMap: trim the entries, keep those
in the allow-list (`allowedNeeds.includes`), truncate to 3, and default to
`["safety"]` when none survive. -/
def sanitizeNeeds (arr : List String) : List String :=
  let filtered := (arr.map trimWs).filter (fun v => decide (v ∈ needsEnum))
  if filtered.length > 0 then filtered.take 3 else ["safety"]

/-- Local `sanitizeProtocol` of repairSpiessMap. -/
def sanitizeProtocol (val : String) : String :=
  let v := trimWs val
  if v ∈ allowedProtocols then v else "STOP"

/-- AnalysisService.repairNarrativeLoop (src/services/analysisService.js
lines 583-605). -/
def repairNarrativeLoop (nl : NarrativeLoop) : NarrativeLoop :=
  { trigger := sanitizeStringD nl.trigger "Hypothesis: Trigger not clearly identified"
    fear := sanitizeStringD nl.fear "Hypothesis: Fear not clearly identified"
    emotion := sanitizeStringD nl.emotion "Hypothesis: Emotion not clearly identified"
    outcome := sanitizeStringD nl.outcome "Hypothesis: Outcome not clearly identified"
    whyItFeelsReal := sanitizeStringD nl.whyItFeelsReal
      "Hypothesis: Why it feels real not clearly identified"
    hiddenLogic := sanitizeStringD nl.hiddenLogic
      "Hypothesis: Hidden logic not clearly identified"
    breakingActions := sanitizeArrayNL nl.breakingActions
      "Hypothesis: Breaking action not clearly identified"
    mechanisms := sanitizeArrayNL nl.mechanisms
      "Hypothesis: Mechanism not clearly identified" }

/-- AnalysisService.repairSpiessMap (src/services/analysisService.js
lines 612-659); `spiessMap.microTest || \x7b\x7d` and
`spiessMap.toolAction || \x7b\x7d` are identities on the normalized
domain. -/
def repairSpiessMap (sp : SpiessMap) : SpiessMap :=
  { sensations := sanitizeArraySM sp.sensations
      "Hypothesis: Sensation not clearly identified" 5
    emotions := sanitizeArraySM sp.emotions
      "Hypothesis: Emotion not clearly identified" 5
    needs := sanitizeNeeds sp.needs
    confirmationBias := sanitizeStringD sp.confirmationBias
      "Hypothesis: Confirmation bias not clearly identified"
    microTest :=
      { description := sanitizeStringD sp.microTest.description
          "Hypothesis: Micro test not clearly identified"
        timeframe := sanitizeStringD sp.microTest.timeframe "Within 24 hours"
        successCriteria := sanitizeStringD sp.microTest.successCriteria
          "Hypothesis: Success criteria not clearly identified" }
    toolAction :=
      { protocol := sanitizeProtocol sp.toolAction.protocol
        steps := sanitizeArraySM sp.toolAction.steps
          "Hypothesis: Tool action step not clearly identified" 5
        example_ := sanitizeStringD sp.toolAction.example_
          "Hypothesis: Tool action example not clearly identified" } }

/-! ## Response parser (src/services/analysisService.js lines 24-66)

`JSON.parse` belongs to the JS runtime, so it is abstracted as a
parameter `jparse : String → Except ε δ` (an exception value on failure,
a data value on success); the extraction steps around it are embedded
concretely. -/

/-- Index of the first occurrence of a character (JS `String.indexOf`). -/
def firstIdxOf (c : Char) : List Char → Option Nat
  | [] => none
  | a :: as => if a = c then some 0 else (firstIdxOf c as).map (· + 1)

/-- Index of the last occurrence of a character (JS `String.lastIndexOf`). -/
def lastIdxOf (c : Char) (l : List Char) : Option Nat :=
  (firstIdxOf c l.reverse).map (fun i => l.length - 1 - i)

/-- Capture of the labeled fenced-block regex
`/(three backticks)json\s*([\s\S]*?)\s*(three backticks)/i` when it
matches: the region between the first "(three backticks)json" tag
(case-insensitive) and the next "(three backticks)" after it, with
surrounding whitespace absorbed by the greedy `\s*` and the lazy capture;
`none` when the regex has no match.  (Any later tag occurrence contains
a closing fence itself, so anchoring at the first tag is exact.) -/
def extractLabeledFenced (text : String) : Option String :=
  let cs := text.data
  match findSubIdx ("```json".data) (cs.map Char.toLower) with
  | none => none
  | some i =>
    let tail := cs.drop (i + 7)
    match findSubIdx ("```".data) tail with
    | none => none
    | some q => some (String.mk (trimWsL (tail.take q)))

/-- Capture of the unlabeled fenced-block regex
`/(three backticks)\s*([\s\S]*?)\s*(three backticks)/i`, analogously. -/
def extractUnlabeledFenced (text : String) : Option String :=
  let cs := text.data
  match findSubIdx ("```".data) cs with
  | none => none
  | some i =>
    let tail := cs.drop (i + 3)
    match findSubIdx ("```".data) tail with
    | none => none
    | some q => some (String.mk (trimWsL (tail.take q)))

/-- JS `text.match(labeled) || text.match(unlabeled)`: the labeled match
wins whenever it exists, even with an empty capture. -/
def extractFenced (text : String) : Option String :=
  match extractLabeledFenced text with
  | some c => some c
  | none => extractUnlabeledFenced text

/-- Brace-depth scan of safeJsonParse (lines 42-51): index of the `\x7d`
closing the first `\x7b`, walking the candidate once and breaking when the
depth returns to zero. -/
def scanBalancedEnd : List Char → Nat → Int → Option Nat
  | [], _, _ => none
  | c :: cs, i, depth =>
    if c = '{' then scanBalancedEnd cs (i + 1) (depth + 1)
    else if c = '}' then
      (if depth - 1 = 0 then some i else scanBalancedEnd cs (i + 1) (depth - 1))
    else scanBalancedEnd cs (i + 1) depth

/-- Lines 36-62 of safeJsonParse (the brace-extraction fallback): when a
first `\x7b` and a later last `\x7d` exist, slice the candidate between
them, parse its balanced prefix when the depth scan finds one and the
naive candidate otherwise, and fall back to the original error `e1` when
the parse fails or no candidate exists. -/
def braceFallback {ε δ : Type} (jparse : String → Except ε δ) (text : String)
    (e1 : ε) : Except ε δ :=
  match firstIdxOf '{' text.data, lastIdxOf '}' text.data with
  | some fb, some lb =>
    if fb < lb then
      let candidate := (text.data.drop fb).take (lb + 1 - fb)
      match scanBalancedEnd candidate 0 0 with
      | some e =>
        match jparse (String.mk (candidate.take (e + 1))) with
        | .ok d => .ok d
        | .error _ => .error e1
      | none =>
        match jparse (String.mk candidate) with
        | .ok d => .ok d
        | .error _ => .error e1
    else .error e1
  | _, _ => .error e1

/-- AnalysisService.safeJsonParse (src/services/analysisService.js lines
24-66), translated try/catch by try/catch: direct parse; on failure the
fenced capture when present and non-empty (JS truthiness of
`fencedMatch[1]`); on failure the brace-extraction fallback; exhaustion
returns the error `e1` of the direct parse. -/
def safeJsonParse {ε δ : Type} (jparse : String → Except ε δ) (text : String) :
    Except ε δ :=
  match jparse text with
  | .ok d => .ok d
  | .error e1 =>
    let fencedResult : Option δ :=
      match extractFenced text with
      | some cap => if cap = "" then none else (jparse cap).toOption
      | none => none
    match fencedResult with
    | some d => .ok d
    | none => braceFallback jparse text e1

/-- First successful parse among an ordered list of candidate strings. -/
def firstOkParse {ε δ : Type} (jparse : String → Except ε δ) :
    List String → Option δ
  | [] => none
  | c :: cs =>
    match jparse c with
    | .ok d => some d
    | .error _ => firstOkParse jparse cs

/-- Candidate of the fenced-block strategy, as the claim describes it:
the extracted fenced block (labeled or unlabeled), when one exists. -/
def fencedCandidates (text : String) : List String :=
  match extractFenced text with
  | some c => [c]
  | none => []

/-- Candidate of the balanced-brace strategy, as the claim describes it:
from the first opening brace, the balanced region found by the depth
scan, or else the naive first-to-last-brace substring. -/
def braceCandidates (text : String) : List String :=
  let cs := text.data
  match firstIdxOf '{' cs, lastIdxOf '}' cs with
  | some fb, some lb =>
    if fb < lb then
      let candidate := (cs.drop fb).take (lb + 1 - fb)
      match scanBalancedEnd candidate 0 0 with
      | some e => [String.mk (candidate.take (e + 1))]
      | none => [String.mk candidate]
    else []
  | _, _ => []

/-- Specification-side parse chain, following the claim's words: three
strategies in strict order (direct parse, fenced extraction then parse,
brace extraction then parse), the first success ending the chain, and
exhaustion returning the error of the original direct parse. -/
def parseChainSpec {ε δ : Type} (jparse : String → Except ε δ) (text : String) :
    Except ε δ :=
  match jparse text with
  | .ok d => .ok d
  | .error e1 =>
    match firstOkParse jparse (fencedCandidates text ++ braceCandidates text) with
    | some d => .ok d
    | none => .error e1

/-! ## Clarifying questions and tag detection -/

/-- AnalysisService.needsClarifyingQuestions (src/services/analysisService.js
lines 221-244).  The completion call is modelled by its outcome: an
exception, or the list of choice message contents.  A successful response
answers YES exactly when the first choice's trimmed, upper-cased content
is "YES"; accessing `choices[0]` of an empty list throws inside the
`try`, which the catch turns into `false`, as it does the service error. -/
def needsClarifyingQuestions {ε : Type} (resp : Except ε (List String)) : Bool :=
  match resp with
  | .error _ => false
  | .ok choices =>
    match choices.head? with
    | none => false
    | some content => upperStr (trimWs content) == "YES"

/-- Deduplication by a JS `Set`: keep the first occurrence of each
element, preserving insertion order (`seen` accumulates what was kept). -/
def dedupFirstAux (seen : List String) : List String → List String
  | [] => []
  | x :: xs =>
    if x ∈ seen then dedupFirstAux seen xs
    else x :: dedupFirstAux (x :: seen) xs

/-- JS `[...new Set(tags)]`. -/
def dedupFirst (l : List String) : List String :=
  dedupFirstAux [] l

/-- The 8 canonical tags of detectMechanisms, in source order. -/
def mechanismTaxonomy : List String :=
  ["confirmation_bias", "fear_of_rejection", "autonomy_threat",
   "perfectionism", "people_pleasing", "boundary_signaling",
   "attention_testing", "vulnerability_avoidance"]

/-- AnalysisService.detectMechanisms (src/services/analysisService.js
lines 495-534).  The source builds
`text = (JSON.stringify(narrativeLoop) + " " + JSON.stringify(spiessMap)).toLowerCase()`
and tests fixed substrings of it; the argument here is that concatenated
textual form (the lower-casing is applied inside).  Each keyword group
pushes its canonical tag once, and the result is deduplicated by a Set. -/
def detectMechanisms (combined : String) : List String :=
  let text := lowerStr combined
  dedupFirst (
    (if hasSubstr text "confirmation bias" || hasSubstr text "confirmation_bias"
     then ["confirmation_bias"] else []) ++
    (if hasSubstr text "rejection" || hasSubstr text "rejection_sensitivity"
     then ["fear_of_rejection"] else []) ++
    (if hasSubstr text "control" || hasSubstr text "autonomy"
     then ["autonomy_threat"] else []) ++
    (if hasSubstr text "perfect" || hasSubstr text "perfectionism"
     then ["perfectionism"] else []) ++
    (if hasSubstr text "people pleas" || hasSubstr text "approval"
     then ["people_pleasing"] else []) ++
    (if hasSubstr text "boundary" || hasSubstr text "limit"
     then ["boundary_signaling"] else []) ++
    (if hasSubstr text "attention" || hasSubstr text "test"
     then ["attention_testing"] else []) ++
    (if hasSubstr text "vulnerable" || hasSubstr text "vulnerability"
     then ["vulnerability_avoidance"] else []))

end Clarify

namespace Clarify

theorem detectCrisis_empty : detectCrisis "" = false := by decide

theorem detectPromptInjection_empty : detectPromptInjection "" = false := by decide

/-- Any input flagged by detectCrisis takes the crisis exit of
validateInput, before sanitization, redaction or anything else. -/
theorem validateInput_crisis_exit (sh : String → String) (now input : String)
    (so rn : Bool) (h : detectCrisis input = true) :
    validateInput sh now input so rn = .crisis (getCrisisResponse now) := by
  have hne : input ≠ "" := by
    intro he
    rw [he, detectCrisis_empty] at h
    exact Bool.false_ne_true h
  simp [validateInput, hne, h]

/-- Claim C2: whenever a crisis keyword occurs as a case-insensitive
substring of the input or a crisis regex pattern matches, validateInput
returns the fixed crisis exit (isValid=false, isCrisis=true) whose code
is CRISIS_DETECTED and whose resource list is non-empty, independently of
the storage/redaction flags and of anything else in the input; the result
carries no sanitized or redacted text, so the input is not forwarded. -/
theorem C2_crisis_short_circuit (sh : String → String) (now input : String)
    (so rn : Bool) (h : detectCrisis input = true) :
    validateInput sh now input so rn = .crisis (getCrisisResponse now) ∧
    (getCrisisResponse now).code = "CRISIS_DETECTED" ∧
    (getCrisisResponse now).resources ≠ [] := by
  refine ⟨validateInput_crisis_exit sh now input so rn h, rfl, ?_⟩
  simp [getCrisisResponse]

/-- Witness for C2 on the concrete input "I want to kill myself". -/
theorem C2_witness :
    detectCrisis "I want to kill myself" = true ∧
    (validateInput id "2024-01-01T00:00:00.000Z" "I want to kill myself" false true =
        .crisis (getCrisisResponse "2024-01-01T00:00:00.000Z") ∧
      (getCrisisResponse "2024-01-01T00:00:00.000Z").code = "CRISIS_DETECTED" ∧
      (getCrisisResponse "2024-01-01T00:00:00.000Z").resources ≠ []) :=
  ⟨by decide,
   C2_crisis_short_circuit id "2024-01-01T00:00:00.000Z" "I want to kill myself"
     false true (by decide)⟩

/-- Claim C7: an input matching a prompt-injection pattern that does not
satisfy crisis detection is rejected with the fixed generic message
"Invalid input detected" — an ordinary invalid exit, not a crisis exit,
and the same message whichever pattern matched. -/
theorem C7_injection_rejected (sh : String → String) (now input : String)
    (so rn : Bool) (hinj : detectPromptInjection input = true)
    (hcr : detectCrisis input = false) :
    validateInput sh now input so rn = .invalid "Invalid input detected" ∧
    ∀ r, validateInput sh now input so rn ≠ .crisis r := by
  have hne : input ≠ "" := by
    intro he
    rw [he, detectPromptInjection_empty] at hinj
    exact Bool.false_ne_true hinj
  have heq : validateInput sh now input so rn = .invalid "Invalid input detected" := by
    simp [validateInput, hne, hcr, hinj]
  exact ⟨heq, fun r hr => by rw [heq] at hr; exact ValidationResult.noConfusion hr⟩

/-- Witness for C7 on the concrete input "ignore previous instructions". -/
theorem C7_witness :
    detectPromptInjection "ignore previous instructions" = true ∧
    detectCrisis "ignore previous instructions" = false ∧
    validateInput id "t0" "ignore previous instructions" false true =
      .invalid "Invalid input detected" :=
  ⟨by decide, by decide,
   (C7_injection_rejected id "t0" "ignore previous instructions" false true
     (by decide) (by decide)).1⟩

/-- Claim C10: any input containing one of the broad crisis keywords
"help me", "crisis", "hopeless", "burden", "no point" or "give up" as a
case-insensitive substring is classified as a crisis by validateInput
(isValid=false, isCrisis=true) and is never forwarded to analysis, even
when it carries no self-harm content. -/
theorem C10_broad_keywords_trigger_crisis (sh : String → String)
    (now input kw : String) (so rn : Bool)
    (hkw : kw ∈ (["help me", "crisis", "hopeless", "burden", "no point",
      "give up"] : List String))
    (hsub : hasSubstr (lowerStr input) kw = true) :
    validateInput sh now input so rn = .crisis (getCrisisResponse now) := by
  have hmem : kw ∈ crisisKeywords := by
    fin_cases hkw <;> decide
  have hcr : detectCrisis input = true := by
    unfold detectCrisis
    simp only [Bool.or_eq_true, List.any_eq_true]
    exact Or.inl ⟨kw, hmem, hsub⟩
  exact validateInput_crisis_exit sh now input so rn hcr

/-- Witness for C10 on the concrete input "Can you help me with my
schedule", which carries no self-harm content. -/
theorem C10_witness :
    hasSubstr (lowerStr "Can you help me with my schedule") "help me" = true ∧
    validateInput id "t0" "Can you help me with my schedule" false true =
      .crisis (getCrisisResponse "t0") :=
  ⟨by decide,
   C10_broad_keywords_trigger_crisis id "t0" "Can you help me with my schedule"
     "help me" false true (by decide) (by decide)⟩

/-- Counterexample to claim C9: validateInput is not a pure function of
its three declared arguments alone — on the crisis path the returned
response embeds `new Date().toISOString()`, so two invocations of the
crisis path at different clock readings (here "A" and "B") differ. -/
theorem C9_counterexample :
    validateInput id "A" "suicide" false true ≠
      validateInput id "B" "suicide" false true := by decide

/-- Claim C9 amended: validateInput is deterministic in its input and the
two flags up to the crisis-response timestamp: the results of two
invocations at different clock readings agree after erasing that
timestamp, and agree exactly whenever crisis detection does not fire. -/
theorem C9_determinism_modulo_timestamp (sh : String → String)
    (now₁ now₂ input : String) (so rn : Bool) :
    stripTimestamp (validateInput sh now₁ input so rn) =
      stripTimestamp (validateInput sh now₂ input so rn) ∧
    (detectCrisis input = false →
      validateInput sh now₁ input so rn = validateInput sh now₂ input so rn) := by
  constructor
  · by_cases hne : input = ""
    · simp [validateInput, hne]
    · by_cases hcr : detectCrisis input
      · simp [validateInput, hne, hcr, stripTimestamp, getCrisisResponse]
      · simp [validateInput, hne, hcr]
  · intro hcr
    by_cases hne : input = ""
    · simp [validateInput, hne]
    · simp [validateInput, hne, hcr]

/-- Witness for C9 amended at the crisis-free input "hello" and the
crisis input "suicide". -/
theorem C9_witness :
    detectCrisis "hello" = false ∧
    validateInput id "A" "hello" false true = validateInput id "B" "hello" false true ∧
    stripTimestamp (validateInput id "A" "suicide" false true) =
      stripTimestamp (validateInput id "B" "suicide" false true) :=
  ⟨by decide,
   (C9_determinism_modulo_timestamp id "A" "B" "hello" false true).2 (by decide),
   (C9_determinism_modulo_timestamp id "A" "B" "suicide" false true).1⟩

/-- Counterexample to claim C3: with `storageOptIn = true` and
`redactNames = false` no redaction runs at all, so an email pattern
survives into processedInput (first block: the same email is exactly what
the email pass would have redacted); and with `storageOptIn = false` and
`redactNames = false` the name pass is skipped even though the caller did
not opt into storage, so a capitalized two-word name survives (second
block: the name pass would have redacted it). -/
theorem C3_counterexample :
    (validateInput id "t0" "Reach me at bob@x.com" true false =
        .valid "Reach me at bob@x.com" 21 21 ∧
      hasSubstr "Reach me at bob@x.com" "bob@x.com" = true ∧
      redactPII "Reach me at bob@x.com" false = "Reach me at [EMAIL_REDACTED]") ∧
    (validateInput id "t0" "John Smith greeted Bob" false false =
        .valid "John Smith greeted Bob" 22 22 ∧
      redactPII "John Smith greeted Bob" true = "[NAME_REDACTED] greeted Bob") := by
  decide

/-- Claim C3 amended: for inputs that pass the crisis, injection and
empty-after-sanitize checks, processedInput is the sanitized text with
the email, phone, SSN-like and card-like passes applied unless the caller
both opted into storage and disabled name redaction (in which case no
redaction at all is applied), and with the name pass applied exactly when
`redactNames` is true. -/
theorem C3_redaction_policy (sh : String → String) (now input : String)
    (so rn : Bool)
    (hcr : detectCrisis input = false)
    (hinj : detectPromptInjection input = false)
    (hne : input ≠ "")
    (hs : (sanitizeInput sh input).length ≠ 0) :
    validateInput sh now input so rn =
      .valid (if so && !rn then sanitizeInput sh input
              else redactPII (sanitizeInput sh input) rn)
        input.length (sanitizeInput sh input).length ∧
    (∀ t : String, t ≠ "" →
      redactPII t false = baseRedactPII t ∧
      redactPII t true =
        regexReplaceAll nameItems "[NAME_REDACTED]" (baseRedactPII t)) := by
  constructor
  · simp [validateInput, hne, hcr, hinj, hs]
  · intro t ht
    constructor <;> simp [redactPII, baseRedactPII, ht]

/-- Witness for C3 amended at a concrete input whose email is redacted on
the default path (storageOptIn = false, redactNames = true). -/
theorem C3_witness :
    validateInput id "t0" "Email bob@x.com arrived" false true =
      .valid (if false && !true then sanitizeInput id "Email bob@x.com arrived"
              else redactPII (sanitizeInput id "Email bob@x.com arrived") true)
        ("Email bob@x.com arrived" : String).length
        (sanitizeInput id "Email bob@x.com arrived").length ∧
    redactPII (sanitizeInput id "Email bob@x.com arrived") true =
      "Email [EMAIL_REDACTED] arrived" :=
  ⟨(C3_redaction_policy id "t0" "Email bob@x.com arrived" false true
      (by decide) (by decide) (by decide) (by decide)).1,
   by decide⟩

theorem sanitizeStringD_pos (v fb : String) (h : 0 < fb.length) :
    0 < (sanitizeStringD v fb).length := by
  simp only [sanitizeStringD]
  by_cases hs : (trimWs v).length > 0
  · rw [if_pos hs]
    exact hs
  · rw [if_neg hs]
    exact h

theorem sanitizeArrayNL_ne_nil (arr : List String) (fb : String) :
    sanitizeArrayNL arr fb ≠ [] := by
  simp only [sanitizeArrayNL]
  by_cases h : ((arr.map trimWs).filter fun v => v.length > 0).length > 0
  · rw [if_pos h]
    exact List.ne_nil_of_length_pos h
  · rw [if_neg h]
    simp

theorem sanitizeArrayNL_mem_pos (arr : List String) (fb : String)
    (hfb : 0 < fb.length) : ∀ a ∈ sanitizeArrayNL arr fb, 0 < a.length := by
  intro a ha
  unfold sanitizeArrayNL at ha
  by_cases h : ((arr.map trimWs).filter fun v => v.length > 0).length > 0
  · rw [if_pos h] at ha
    have := List.mem_filter.mp ha
    simpa using this.2
  · rw [if_neg h] at ha
    rcases List.mem_singleton.mp ha with rfl
    exact hfb

theorem sanitizeArraySM_length (arr : List String) (fb : String) (maxN : Nat)
    (h : 1 ≤ maxN) :
    1 ≤ (sanitizeArraySM arr fb maxN).length ∧
    (sanitizeArraySM arr fb maxN).length ≤ maxN := by
  simp only [sanitizeArraySM]
  by_cases h0 : ((arr.map trimWs).filter fun v => v.length > 0).length = 0
  · rw [if_pos h0]
    simp only [List.length_take, List.length_singleton]
    omega
  · rw [if_neg h0]
    simp only [List.length_take]
    omega

theorem sanitizeNeeds_spec (arr : List String) :
    (∀ n ∈ sanitizeNeeds arr, n ∈ needsEnum) ∧
    1 ≤ (sanitizeNeeds arr).length ∧ (sanitizeNeeds arr).length ≤ 3 := by
  unfold sanitizeNeeds
  by_cases h : ((arr.map trimWs).filter fun v => decide (v ∈ needsEnum)).length > 0
  · rw [if_pos h]
    refine ⟨?_, ?_, ?_⟩
    · intro n hn
      have := List.mem_filter.mp (List.mem_of_mem_take hn)
      simpa using this.2
    · simp only [List.length_take]
      omega
    · simp only [List.length_take]
      omega
  · rw [if_neg h]
    exact ⟨fun n hn => by rcases List.mem_singleton.mp hn with rfl; decide,
      by simp, by simp⟩

theorem sanitizeProtocol_mem (v : String) :
    sanitizeProtocol v ∈ allowedProtocols := by
  unfold sanitizeProtocol
  by_cases h : trimWs v ∈ allowedProtocols
  · simp [h]
  · simp [h]
    decide

/-- Claim C1 amended: the repair functions guarantee every required field
present and non-empty (non-empty strings, non-empty arrays of non-empty
items), the SpiessMap count bounds for sensations, emotions, steps (at
most 5 after truncation) and needs (1 to 3), needs membership in the
12-term enumeration and protocol membership in the three allowed
literals; they do not guarantee the string-length maxima of the strict
schemas, nor the NarrativeLoop array count maxima. -/
theorem C1_repair_guarantees (nl : NarrativeLoop) (sp : SpiessMap) :
    (0 < (repairNarrativeLoop nl).trigger.length ∧
     0 < (repairNarrativeLoop nl).fear.length ∧
     0 < (repairNarrativeLoop nl).emotion.length ∧
     0 < (repairNarrativeLoop nl).outcome.length ∧
     0 < (repairNarrativeLoop nl).whyItFeelsReal.length ∧
     0 < (repairNarrativeLoop nl).hiddenLogic.length ∧
     (repairNarrativeLoop nl).breakingActions ≠ [] ∧
     (∀ a ∈ (repairNarrativeLoop nl).breakingActions, 0 < a.length) ∧
     (repairNarrativeLoop nl).mechanisms ≠ [] ∧
     (∀ a ∈ (repairNarrativeLoop nl).mechanisms, 0 < a.length)) ∧
    (1 ≤ (repairSpiessMap sp).sensations.length ∧
     (repairSpiessMap sp).sensations.length ≤ 5 ∧
     1 ≤ (repairSpiessMap sp).emotions.length ∧
     (repairSpiessMap sp).emotions.length ≤ 5 ∧
     1 ≤ (repairSpiessMap sp).needs.length ∧
     (repairSpiessMap sp).needs.length ≤ 3 ∧
     (∀ n ∈ (repairSpiessMap sp).needs, n ∈ needsEnum) ∧
     0 < (repairSpiessMap sp).confirmationBias.length ∧
     0 < (repairSpiessMap sp).microTest.description.length ∧
     0 < (repairSpiessMap sp).microTest.timeframe.length ∧
     0 < (repairSpiessMap sp).microTest.successCriteria.length ∧
     (repairSpiessMap sp).toolAction.protocol ∈ allowedProtocols ∧
     1 ≤ (repairSpiessMap sp).toolAction.steps.length ∧
     (repairSpiessMap sp).toolAction.steps.length ≤ 5 ∧
     0 < (repairSpiessMap sp).toolAction.example_.length) := by
  refine ⟨⟨?_, ?_, ?_, ?_, ?_, ?_, ?_, ?_, ?_, ?_⟩,
    ?_, ?_, ?_, ?_, ?_, ?_, ?_, ?_, ?_, ?_, ?_, ?_, ?_, ?_, ?_⟩
  · exact sanitizeStringD_pos _ _ (by decide)
  · exact sanitizeStringD_pos _ _ (by decide)
  · exact sanitizeStringD_pos _ _ (by decide)
  · exact sanitizeStringD_pos _ _ (by decide)
  · exact sanitizeStringD_pos _ _ (by decide)
  · exact sanitizeStringD_pos _ _ (by decide)
  · exact sanitizeArrayNL_ne_nil _ _
  · exact sanitizeArrayNL_mem_pos _ _ (by decide)
  · exact sanitizeArrayNL_ne_nil _ _
  · exact sanitizeArrayNL_mem_pos _ _ (by decide)
  · exact (sanitizeArraySM_length _ _ _ (by decide)).1
  · exact (sanitizeArraySM_length _ _ _ (by decide)).2
  · exact (sanitizeArraySM_length _ _ _ (by decide)).1
  · exact (sanitizeArraySM_length _ _ _ (by decide)).2
  · exact (sanitizeNeeds_spec _).2.1
  · exact (sanitizeNeeds_spec _).2.2
  · exact (sanitizeNeeds_spec _).1
  · exact sanitizeStringD_pos _ _ (by decide)
  · exact sanitizeStringD_pos _ _ (by decide)
  · exact sanitizeStringD_pos _ _ (by decide)
  · exact sanitizeStringD_pos _ _ (by decide)
  · exact sanitizeProtocol_mem _
  · exact (sanitizeArraySM_length _ _ _ (by decide)).1
  · exact (sanitizeArraySM_length _ _ _ (by decide)).2
  · exact sanitizeStringD_pos _ _ (by decide)

/-- Counterexample to claim C1: the repair functions do not enforce the
strict schemas' length maxima or the NarrativeLoop count maxima.  A
1001-character trigger and a 6-element breakingActions array survive
repairNarrativeLoop unchanged, and a 1001-character confirmationBias
survives repairSpiessMap, so the strict schemas reject the repaired
values. -/
theorem C1_counterexample :
    narrativeLoopSchemaValid (repairNarrativeLoop
      { trigger := String.mk (List.replicate 1001 'a'), fear := "x",
        emotion := "x", outcome := "x", whyItFeelsReal := "x",
        hiddenLogic := "x",
        breakingActions := ["a", "b", "c", "d", "e", "f"],
        mechanisms := ["m"] }) = false ∧
    spiessMapSchemaValid (repairSpiessMap
      { sensations := ["s"], emotions := ["e"], needs := ["happiness"],
        confirmationBias := String.mk (List.replicate 1001 'a'),
        microTest := { description := "d", timeframe := "t",
                       successCriteria := "s" },
        toolAction := { protocol := "STOP", steps := ["a"],
                        example_ := "ex" } }) = false := by
  decide

/-- Claim C5: repairSpiessMap filters the needs against the fixed 12-term
allow-list (after trimming) before truncating to 3, substitutes
`["safety"]` when nothing survives (so an out-of-enumeration value such
as "happiness" is dropped), and replaces any protocol outside the three
allowed literals by "STOP". -/
theorem C5_needs_protocol_repair (sp : SpiessMap) :
    (repairSpiessMap sp).needs =
      (if ((sp.needs.map trimWs).filter fun v => decide (v ∈ needsEnum)).length > 0
       then ((sp.needs.map trimWs).filter fun v => decide (v ∈ needsEnum)).take 3
       else ["safety"]) ∧
    (∀ n ∈ (repairSpiessMap sp).needs, n ∈ needsEnum) ∧
    (repairSpiessMap sp).needs.length ≤ 3 ∧
    "happiness" ∉ (repairSpiessMap sp).needs ∧
    (repairSpiessMap sp).toolAction.protocol =
      (if trimWs sp.toolAction.protocol ∈ allowedProtocols
       then trimWs sp.toolAction.protocol else "STOP") ∧
    (repairSpiessMap sp).toolAction.protocol ∈ allowedProtocols := by
  refine ⟨rfl, (sanitizeNeeds_spec _).1, (sanitizeNeeds_spec _).2.2, ?_, rfl,
    sanitizeProtocol_mem _⟩
  intro hmem
  have := (sanitizeNeeds_spec sp.needs).1 _ hmem
  revert this
  decide

/-- Witness for C1 amended: concrete repaired values exist whose
guaranteed parts hold, at inputs every one of whose fields is invalid. -/
theorem C1_witness :
    (∀ a ∈ (repairNarrativeLoop
      { trigger := "", fear := "", emotion := "", outcome := "",
        whyItFeelsReal := "", hiddenLogic := "", breakingActions := [],
        mechanisms := [] }).breakingActions, 0 < a.length) ∧
    (∀ n ∈ (repairSpiessMap
      { sensations := [], emotions := [], needs := ["happiness"],
        confirmationBias := "",
        microTest := ⟨"", "", ""⟩,
        toolAction := ⟨"bogus", [], ""⟩ }).needs, n ∈ needsEnum) :=
  ⟨(C1_repair_guarantees
      { trigger := "", fear := "", emotion := "", outcome := "",
        whyItFeelsReal := "", hiddenLogic := "", breakingActions := [],
        mechanisms := [] }
      { sensations := [], emotions := [], needs := ["happiness"],
        confirmationBias := "",
        microTest := ⟨"", "", ""⟩,
        toolAction := ⟨"bogus", [], ""⟩ }).1.2.2.2.2.2.2.2.1,
   (C1_repair_guarantees
      { trigger := "", fear := "", emotion := "", outcome := "",
        whyItFeelsReal := "", hiddenLogic := "", breakingActions := [],
        mechanisms := [] }
      { sensations := [], emotions := [], needs := ["happiness"],
        confirmationBias := "",
        microTest := ⟨"", "", ""⟩,
        toolAction := ⟨"bogus", [], ""⟩ }).2.2.2.2.2.2.2.1⟩

/-- Witness for C5 at a concrete SpiessMap whose only need is the
out-of-enumeration "happiness" and whose protocol is not allowed: the
repaired needs are `["safety"]` and the repaired protocol is "STOP". -/
theorem C5_witness :
    (repairSpiessMap
      { sensations := ["s"], emotions := ["e"], needs := ["happiness"],
        confirmationBias := "c",
        microTest := ⟨"d", "t", "s"⟩,
        toolAction := ⟨"Be Nice", ["x"], "ex"⟩ }).needs = ["safety"] ∧
    (repairSpiessMap
      { sensations := ["s"], emotions := ["e"], needs := ["happiness"],
        confirmationBias := "c",
        microTest := ⟨"d", "t", "s"⟩,
        toolAction := ⟨"Be Nice", ["x"], "ex"⟩ }).toolAction.protocol = "STOP" := by
  constructor
  · rw [(C5_needs_protocol_repair
      { sensations := ["s"], emotions := ["e"], needs := ["happiness"],
        confirmationBias := "c",
        microTest := ⟨"d", "t", "s"⟩,
        toolAction := ⟨"Be Nice", ["x"], "ex"⟩ }).1]
    decide
  · rw [(C5_needs_protocol_repair
      { sensations := ["s"], emotions := ["e"], needs := ["happiness"],
        confirmationBias := "c",
        microTest := ⟨"d", "t", "s"⟩,
        toolAction := ⟨"Be Nice", ["x"], "ex"⟩ }).2.2.2.2.1]
    decide

/-- Claim C6: whenever the completion-service call inside
needsClarifyingQuestions fails (the modelled outcome is an exception),
the function returns false — the pipeline defaults to "no questions
needed" instead of entering the clarifying-questions branch. -/
theorem C6_fail_open {ε : Type} (e : ε) :
    needsClarifyingQuestions (Except.error e : Except ε (List String)) = false :=
  rfl

/-- Witness for C6 at a concrete error value. -/
theorem C6_witness :
    needsClarifyingQuestions
      (Except.error "completion service unavailable" : Except String (List String)) =
      false :=
  C6_fail_open "completion service unavailable"

theorem mem_dedupFirstAux (x : String) :
    ∀ (l seen : List String), x ∈ dedupFirstAux seen l ↔ (x ∈ l ∧ x ∉ seen) := by
  intro l
  induction l with
  | nil =>
    intro seen
    simp [dedupFirstAux]
  | cons a as ih =>
    intro seen
    by_cases ha : a ∈ seen
    · simp only [dedupFirstAux, if_pos ha, ih, List.mem_cons]
      constructor
      · rintro ⟨hx, hns⟩
        exact ⟨Or.inr hx, hns⟩
      · rintro ⟨rfl | hx, hns⟩
        · exact absurd ha hns
        · exact ⟨hx, hns⟩
    · simp only [dedupFirstAux, if_neg ha, List.mem_cons, ih]
      constructor
      · rintro (rfl | ⟨hx, hns⟩)
        · exact ⟨Or.inl rfl, ha⟩
        · exact ⟨Or.inr hx, fun hs => hns (Or.inr hs)⟩
      · rintro ⟨rfl | hx, hns⟩
        · exact Or.inl rfl
        · by_cases hxa : x = a
          · exact Or.inl hxa
          · exact Or.inr ⟨hx, fun h => h.elim hxa hns⟩

theorem nodup_dedupFirstAux :
    ∀ (l seen : List String), (dedupFirstAux seen l).Nodup := by
  intro l
  induction l with
  | nil =>
    intro seen
    simp [dedupFirstAux]
  | cons a as ih =>
    intro seen
    by_cases ha : a ∈ seen
    · rw [dedupFirstAux, if_pos ha]
      exact ih _
    · rw [dedupFirstAux, if_neg ha]
      refine List.Nodup.cons ?_ (ih _)
      intro hmem
      exact ((mem_dedupFirstAux a as (a :: seen)).mp hmem).2
        (List.mem_cons_self a seen)

theorem mem_ite_singleton {c : Prop} [Decidable c] (x a : String) :
    (x ∈ if c then [a] else ([] : List String)) ↔ (c ∧ x = a) := by
  by_cases h : c <;> simp [h]

/-- Membership in the detected tag list, unfolded group by group. -/
theorem mem_detectMechanisms (combined x : String) :
    x ∈ detectMechanisms combined ↔
      (((hasSubstr (lowerStr combined) "confirmation bias" = true ∨
         hasSubstr (lowerStr combined) "confirmation_bias" = true) ∧
        x = "confirmation_bias") ∨
       ((hasSubstr (lowerStr combined) "rejection" = true ∨
         hasSubstr (lowerStr combined) "rejection_sensitivity" = true) ∧
        x = "fear_of_rejection") ∨
       ((hasSubstr (lowerStr combined) "control" = true ∨
         hasSubstr (lowerStr combined) "autonomy" = true) ∧
        x = "autonomy_threat") ∨
       ((hasSubstr (lowerStr combined) "perfect" = true ∨
         hasSubstr (lowerStr combined) "perfectionism" = true) ∧
        x = "perfectionism") ∨
       ((hasSubstr (lowerStr combined) "people pleas" = true ∨
         hasSubstr (lowerStr combined) "approval" = true) ∧
        x = "people_pleasing") ∨
       ((hasSubstr (lowerStr combined) "boundary" = true ∨
         hasSubstr (lowerStr combined) "limit" = true) ∧
        x = "boundary_signaling") ∨
       ((hasSubstr (lowerStr combined) "attention" = true ∨
         hasSubstr (lowerStr combined) "test" = true) ∧
        x = "attention_testing") ∨
       ((hasSubstr (lowerStr combined) "vulnerable" = true ∨
         hasSubstr (lowerStr combined) "vulnerability" = true) ∧
        x = "vulnerability_avoidance")) := by
  simp only [detectMechanisms, dedupFirst, mem_dedupFirstAux,
    List.not_mem_nil, not_false_iff, and_true, List.mem_append,
    mem_ite_singleton, Bool.or_eq_true, or_assoc]

/-- Claim C8 amended: detectMechanisms returns a duplicate-free list of
tags drawn from the fixed 8-term taxonomy, and each tag is present
exactly when one of its group's keywords occurs as a case-insensitive
substring of the concatenated textual form (as the iff for each of the
eight groups states). -/
theorem C8_tag_detection (combined : String) :
    (detectMechanisms combined).Nodup ∧
    (∀ t ∈ detectMechanisms combined, t ∈ mechanismTaxonomy) ∧
    (("confirmation_bias" ∈ detectMechanisms combined) ↔
      (hasSubstr (lowerStr combined) "confirmation bias" = true ∨
       hasSubstr (lowerStr combined) "confirmation_bias" = true)) ∧
    (("fear_of_rejection" ∈ detectMechanisms combined) ↔
      (hasSubstr (lowerStr combined) "rejection" = true ∨
       hasSubstr (lowerStr combined) "rejection_sensitivity" = true)) ∧
    (("autonomy_threat" ∈ detectMechanisms combined) ↔
      (hasSubstr (lowerStr combined) "control" = true ∨
       hasSubstr (lowerStr combined) "autonomy" = true)) ∧
    (("perfectionism" ∈ detectMechanisms combined) ↔
      (hasSubstr (lowerStr combined) "perfect" = true ∨
       hasSubstr (lowerStr combined) "perfectionism" = true)) ∧
    (("people_pleasing" ∈ detectMechanisms combined) ↔
      (hasSubstr (lowerStr combined) "people pleas" = true ∨
       hasSubstr (lowerStr combined) "approval" = true)) ∧
    (("boundary_signaling" ∈ detectMechanisms combined) ↔
      (hasSubstr (lowerStr combined) "boundary" = true ∨
       hasSubstr (lowerStr combined) "limit" = true)) ∧
    (("attention_testing" ∈ detectMechanisms combined) ↔
      (hasSubstr (lowerStr combined) "attention" = true ∨
       hasSubstr (lowerStr combined) "test" = true)) ∧
    (("vulnerability_avoidance" ∈ detectMechanisms combined) ↔
      (hasSubstr (lowerStr combined) "vulnerable" = true ∨
       hasSubstr (lowerStr combined) "vulnerability" = true)) := by
  refine ⟨nodup_dedupFirstAux _ _, ?_, ?_, ?_, ?_, ?_, ?_, ?_, ?_, ?_⟩
  · intro t ht
    rcases (mem_detectMechanisms combined t).mp ht with
      ⟨_, rfl⟩ | ⟨_, rfl⟩ | ⟨_, rfl⟩ | ⟨_, rfl⟩ | ⟨_, rfl⟩ | ⟨_, rfl⟩ |
      ⟨_, rfl⟩ | ⟨_, rfl⟩ <;> decide
  all_goals rw [mem_detectMechanisms]
  all_goals simp

/-- Counterexample to claim C8: the derived-tag taxonomy has 8 terms, not
7 — on an input containing a keyword of every group, detectMechanisms
returns 8 pairwise distinct tags, so no 7-term set contains every
possible output tag. -/
theorem C8_counterexample :
    detectMechanisms
      "confirmation bias rejection control perfect approval boundary attention vulnerable" =
      mechanismTaxonomy ∧
    mechanismTaxonomy.length = 8 ∧
    mechanismTaxonomy.Nodup ∧
    ¬ ∃ T : Finset String, T.card = 7 ∧
        ∀ text t, t ∈ detectMechanisms text → t ∈ T := by
  refine ⟨by decide, by decide, by decide, ?_⟩
  rintro ⟨T, hcard, hT⟩
  have hsub : mechanismTaxonomy.toFinset ⊆ T := by
    intro t ht
    apply hT "confirmation bias rejection control perfect approval boundary attention vulnerable"
    rw [(by decide :
      detectMechanisms
        "confirmation bias rejection control perfect approval boundary attention vulnerable" =
        mechanismTaxonomy)]
    exact List.mem_toFinset.mp ht
  have h8 : mechanismTaxonomy.toFinset.card = 8 := by decide
  have := Finset.card_le_card hsub
  omega

/-- Witness for C8 amended on a text containing "perfectionism" and
"rejection": both tags are detected and the result is duplicate-free. -/
theorem C8_witness :
    "perfectionism" ∈
      detectMechanisms "text with Perfectionism and rejection rejection" ∧
    "fear_of_rejection" ∈
      detectMechanisms "text with Perfectionism and rejection rejection" ∧
    (detectMechanisms "text with Perfectionism and rejection rejection").Nodup :=
  ⟨((C8_tag_detection "text with Perfectionism and rejection rejection").2.2.2.2.2.1).mpr
      (Or.inl (by decide)),
   ((C8_tag_detection "text with Perfectionism and rejection rejection").2.2.2.1).mpr
      (Or.inl (by decide)),
   (C8_tag_detection "text with Perfectionism and rejection rejection").1⟩

/-- The brace-extraction fallback equals "first successful parse among
the brace candidates, else the original error". -/
theorem braceFallback_eq_firstOk {ε δ : Type} (jparse : String → Except ε δ)
    (text : String) (e1 : ε) :
    braceFallback jparse text e1 =
      (match firstOkParse jparse (braceCandidates text) with
        | some d => Except.ok d
        | none => Except.error e1) := by
  simp only [braceFallback, braceCandidates]
  cases h1 : firstIdxOf '{' text.data with
  | none => rfl
  | some fb =>
    cases h2 : lastIdxOf '}' text.data with
    | none => rfl
    | some lb =>
      by_cases hlt : fb < lb
      · simp only [if_pos hlt]
        cases h3 : scanBalancedEnd ((text.data.drop fb).take (lb + 1 - fb)) 0 0 with
        | some e =>
          cases hp : jparse
              (String.mk (((text.data.drop fb).take (lb + 1 - fb)).take (e + 1))) with
          | ok d => simp [firstOkParse, hp]
          | error e2 => simp [firstOkParse, hp]
        | none =>
          cases hp : jparse (String.mk ((text.data.drop fb).take (lb + 1 - fb))) with
          | ok d => simp [firstOkParse, hp]
          | error e2 => simp [firstOkParse, hp]
      · simp [if_neg hlt, firstOkParse]

/-- Claim C4: safeJsonParse is exactly the three-strategy chain the claim
describes — direct parse, fenced-block extraction then parse, balanced
brace extraction (with the naive first-to-last-brace substring as last
resort) then parse — in strict order, where the first success ends the
chain and exhaustion returns the error of the original direct parse; the
hypothesis states that the runtime parser rejects the empty string, as
`JSON.parse` does. -/
theorem C4_parse_strategy_chain {ε δ : Type} (jparse : String → Except ε δ)
    (text : String) (h0 : ∀ d : δ, jparse "" ≠ Except.ok d) :
    safeJsonParse jparse text = parseChainSpec jparse text := by
  unfold safeJsonParse parseChainSpec fencedCandidates
  cases hjt : jparse text with
  | ok d => rfl
  | error e1 =>
    cases hf : extractFenced text with
    | none =>
      simp only [List.nil_append]
      exact braceFallback_eq_firstOk jparse text e1
    | some cap =>
      by_cases hcap : cap = ""
      · subst hcap
        cases hpe : jparse "" with
        | ok d => exact absurd hpe (h0 d)
        | error e2 =>
          simp only [if_pos rfl, List.cons_append, List.nil_append,
            firstOkParse, hpe]
          exact braceFallback_eq_firstOk jparse text e1
      · cases hpc : jparse cap with
        | ok d =>
          simp only [if_neg hcap, hpc, Except.toOption, List.cons_append,
            List.nil_append, firstOkParse]
        | error e2 =>
          simp only [if_neg hcap, hpc, Except.toOption, List.cons_append,
            List.nil_append, firstOkParse]
          exact braceFallback_eq_firstOk jparse text e1

/-- Witness for C4 at a concrete parser and a fenced completion text: the
parser rejects the empty string, the theorem applies, and the chain
recovers the fenced JSON. -/
theorem C4_witness :
    (∀ d : Nat,
      (fun s => if s = "\x7b1\x7d" then (Except.ok 1 : Except String Nat)
                else Except.error "parse error") "" ≠ Except.ok d) ∧
    safeJsonParse
        (fun s => if s = "\x7b1\x7d" then (Except.ok 1 : Except String Nat)
                  else Except.error "parse error")
        "noise ```json \x7b1\x7d ``` tail" =
      parseChainSpec
        (fun s => if s = "\x7b1\x7d" then (Except.ok 1 : Except String Nat)
                  else Except.error "parse error")
        "noise ```json \x7b1\x7d ``` tail" ∧
    safeJsonParse
        (fun s => if s = "\x7b1\x7d" then (Except.ok 1 : Except String Nat)
                  else Except.error "parse error")
        "noise ```json \x7b1\x7d ``` tail" = Except.ok 1 :=
  ⟨fun d h => by simp at h,
   C4_parse_strategy_chain _ _ (fun d h => by simp at h),
   rfl⟩

end Clarify
